import Mathlib

/-!
Verification development for the paravirtual queue spinlock patch
(arch/x86/include/asm/pvqspinlock.h and arch/x86/include/asm/qspinlock.h).

The C code is shallowly embedded: each function of the source becomes a
Lean function over explicit state; the two cross-CPU race handshakes are
embedded as step relations over small interleaving state machines with
sequentially consistent shared memory (every step of the handshakes in
question is fenced in the source, via smp_mb / atomic rmw instructions).
-/

/-- CPU state flags of pvqspinlock.h lines 36-38:
`PV_CPU_ACTIVE = 1`, `PV_CPU_KICKED = 2`, `PV_CPU_HALTED = -1`. -/
inductive CpuState where
  | ACTIVE
  | KICKED
  | HALTED
deriving DecidableEq, Fintype

/-- Observable effects of one `pv_kick_node` call: whether the `xchg` on
`cpustate` was executed, whether `pv_kick_cpu` (the explicit resume) was
issued, and whether the `PV_KICK_NOHALT` statistic was recorded. -/
structure KickEffect where
  xchgDone : Bool
  resumed : Bool
  statNoHalt : Bool
deriving DecidableEq

/-- `pv_kick_node` (pvqspinlock.h lines 356-372): a `NULL` node returns at
once; otherwise `oldstate = xchg(&pn->cpustate, PV_CPU_KICKED)` and
`pv_kick_cpu` is called exactly when the old state was `PV_CPU_HALTED`,
else the no-halt statistic is recorded. The node's `cpustate` is the only
state touched, so it is the value threaded through. -/
def pv_kick_node : Option CpuState → Option CpuState × KickEffect
  | none => (none, ⟨false, false, false⟩)
  | some s =>
      (some CpuState.KICKED,
       ⟨true, s = CpuState.HALTED, ¬(s = CpuState.HALTED)⟩)

/-- The sites in the source that write the `cpustate` field of a node. -/
inductive CpuOp where
  | initNode      -- pv_init_node line 82: `pn->cpustate = PV_CPU_ACTIVE`
  | memberHalt    -- pv_link_and_wait_node line 170: store PV_CPU_HALTED
  | memberResume  -- pv_link_and_wait_node line 208: store PV_CPU_ACTIVE
  | headReset     -- pv_wait_head line 240: store PV_CPU_ACTIVE
  | headHaltCas   -- pv_wait_head line 286: cmpxchg(ACTIVE -> HALTED)
  | headAbort     -- pv_wait_head line 300: store PV_CPU_ACTIVE
  | kickXchg      -- pv_kick_node line 364: xchg(-> KICKED)
deriving DecidableEq, Fintype

/-- The new `cpustate` produced by each write site of the source, as a
function of the old value. Plain stores ignore the old value; the
`cmpxchg` at pv_wait_head line 286 succeeds only from `ACTIVE`. -/
def cpustate_step : CpuOp → CpuState → CpuState
  | CpuOp.initNode, _ => CpuState.ACTIVE
  | CpuOp.memberHalt, _ => CpuState.HALTED
  | CpuOp.memberResume, _ => CpuState.ACTIVE
  | CpuOp.headReset, _ => CpuState.ACTIVE
  | CpuOp.headHaltCas, s =>
      if s = CpuState.ACTIVE then CpuState.HALTED else s
  | CpuOp.headAbort, _ => CpuState.ACTIVE
  | CpuOp.kickXchg, _ => CpuState.KICKED

/-- The transition set the spec's sentence allows, written from the spec's
words (for comparison with the source): `ACTIVE → HALTED`,
`HALTED → ACTIVE`, `HALTED → KICKED`, `KICKED → ACTIVE`. -/
def specAllowedC4 : CpuState × CpuState → Bool
  | (CpuState.ACTIVE, CpuState.HALTED) => true
  | (CpuState.HALTED, CpuState.ACTIVE) => true
  | (CpuState.HALTED, CpuState.KICKED) => true
  | (CpuState.KICKED, CpuState.ACTIVE) => true
  | _ => false

/-- The spec's transition set amended with `ACTIVE → KICKED`, the
transition the unconditional `xchg` of `pv_kick_node` performs on a
redundant kick (the situation documented at pvqspinlock.h lines 281-284). -/
def amendedAllowedC4 : CpuState × CpuState → Bool
  | (CpuState.ACTIVE, CpuState.KICKED) => true
  | p => specAllowedC4 p

/-- The member's post-wake observation (pv_link_and_wait_node lines
205-209): the wake reason is read from `cpustate` (`KICKED` means the
halt episode's explicit kick arrived) and the state is then stored back
to `ACTIVE` by the line-208 store. Returns (KICKED was observed, state
afterwards). -/
def member_wake_observe (s : CpuState) : Bool × CpuState :=
  (s = CpuState.KICKED, cpustate_step CpuOp.memberResume s)

/-- The queue head's kick observation while spinning (pv_wait_head line
246): reading `KICKED` branches to `reset`, whose first action is the
`ACTIVE` store of line 240; any other reading leaves the state alone. -/
def head_spin_observe (s : CpuState) : Bool × CpuState :=
  if s = CpuState.KICKED then (true, cpustate_step CpuOp.headReset s)
  else (false, s)

/-- The queue head's kick observation at the halt `cmpxchg` (pv_wait_head
lines 286-288): an old value of `KICKED` makes the outer loop continue,
which re-runs the `ACTIVE` store of line 240; otherwise the `cmpxchg`
outcome stands. -/
def head_cas_observe (s : CpuState) : Bool × CpuState :=
  if s = CpuState.KICKED then (true, cpustate_step CpuOp.headReset s)
  else (false, cpustate_step CpuOp.headHaltCas s)

/-- The queue head's post-wake observation (pv_wait_head lines 293-295):
after `pv_lockwait` returns, `cpustate` is read for the statistic and the
outer loop continues into the `ACTIVE` store of line 240. -/
def head_wake_observe (s : CpuState) : Bool × CpuState :=
  (s = CpuState.KICKED, cpustate_step CpuOp.headReset s)

/-- Modelled from the spec: `_Q_LOCKED_VAL`, the lock word value with only
the locked bit set (asm-generic/qspinlock_types.h is not part of this
repository's sources). -/
def Q_LOCKED_VAL : Nat := 1

/-- `_Q_LOCKED_SLOWPATH` (qspinlock.h line 26): `_Q_LOCKED_VAL | 2`. -/
def Q_LOCKED_SLOWPATH : Nat := Q_LOCKED_VAL ||| 2

/-- A queue node, `struct pv_qnode` (pvqspinlock.h lines 62-69) with its
embedded `mcs_spinlock` fields flattened in (`locked`, `next`); the
memory-layout overlay trick is irrelevant to the field contents. `head`
holds `none` for `PV_INVALID_HEAD` (NULL, line 43). Node references are
plain naturals. -/
structure pv_qnode where
  locked : Bool
  next : Option Nat
  cpustate : CpuState
  mayhalt : Bool
  mycpu : Nat
  head : Option Nat
deriving DecidableEq

/-- `pv_init_node` (pvqspinlock.h lines 76-86): sets `cpustate = ACTIVE`,
`mayhalt = false`, `mycpu = smp_processor_id()`, `head = PV_INVALID_HEAD`.
It does not touch the embedded mcs fields (`locked`, `next`). -/
def pv_init_node (cpu : Nat) (n : pv_qnode) : pv_qnode :=
  { n with cpustate := CpuState.ACTIVE, mayhalt := false,
           mycpu := cpu, head := none }

/-- Modelled from the spec: the generic slow path's node preparation
(queue_spin_lock_slowpath in kernel/locking/qspinlock.c, not in this
repository's sources) clears the mcs fields -- "a freshly prepared
WaitNode (`locked=false`, ...)" -- and the PV variant then runs
`pv_init_node` on it. -/
def slowpath_prepare_node (cpu : Nat) (n : pv_qnode) : pv_qnode :=
  pv_init_node cpu { n with locked := false, next := none }

/-- The view of the queue head node that the unlock slow path reads: its
`locked` flag (checked by `pv_get_qhead`) and its `cpustate` (exchanged by
`pv_kick_node`). -/
structure HeadNode where
  locked : Bool
  cpustate : CpuState
deriving DecidableEq

/-- `pv_get_qhead` (pvqspinlock.h lines 379-390). Input: the `head` field
of the tail node decoded from the lock value; `none` (PV_INVALID_HEAD)
makes the source spin, modelled as outer result `none`. Once a head `h` is
read, `WARN_ON_ONCE(!pn->head->locked)` returns NULL (inner `none`) when
the head's `locked` flag is false, else the head itself. -/
def pv_get_qhead (tailHeadField : Option HeadNode) :
    Option (Option HeadNode) :=
  match tailHeadField with
  | none => none
  | some h => some (if h.locked then some h else none)

/-- Events of the unlock slow path, in execution order. -/
inductive UEv where
  | locateHead  -- pv_get_qhead call
  | clearLock   -- native_spin_unlock: store 0 to the lock byte
  | kickHead    -- pv_kick_node applied to a present head node
deriving DecidableEq

/-- Result of one `queue_spin_unlock_slowpath` run. `warned` records the
`WARN_ON_ONCE` firing inside `pv_get_qhead`; `headFound` is whether
`pv_get_qhead` produced a non-NULL head; `headState` is that head's
`cpustate` after the kick; `resumed` is whether `pv_kick_cpu` was issued. -/
structure UnlockSlowRes where
  lockByte : Nat
  headFound : Bool
  headState : Option CpuState
  resumed : Bool
  warned : Bool
  events : List UEv
deriving DecidableEq

/-- `queue_spin_unlock_slowpath` (pvqspinlock.h lines 399-409): find the
queue head via `pv_get_qhead`, then `native_spin_unlock(lock)` (store 0 to
the lock byte, qspinlock.h lines 8-12), then `pv_kick_node(node)`. The
kick event is emitted only for a non-NULL head (`pv_kick_node` returns
immediately on NULL). Outer `none`: `pv_get_qhead` never returns because
the tail node's head field is unpublished. -/
def queue_spin_unlock_slowpath (tailHeadField : Option HeadNode) :
    Option UnlockSlowRes :=
  match pv_get_qhead tailHeadField with
  | none => none
  | some qh =>
      let kick := pv_kick_node (qh.map (fun h => h.cpustate))
      some { lockByte := 0
             headFound := qh.isSome
             headState := kick.1
             resumed := kick.2.resumed
             warned := qh.isNone
             events := UEv.locateHead :: UEv.clearLock ::
               (match qh with
                | some _ => [UEv.kickHead]
                | none => []) }

/-- Result of `queue_spin_unlock`. -/
structure UnlockRes where
  lockByte : Nat
  slowEntered : Bool
  resumed : Bool
deriving DecidableEq

/-- `queue_spin_unlock` (qspinlock.h lines 67-81). Without paravirt the
native store clears the byte. With paravirt enabled,
`cmpxchg((u8 *)lock, _Q_LOCKED_VAL, 0)`: on success the byte is cleared
and the function returns; on failure `queue_spin_unlock_slowpath` runs
(its inputs: the tail node's head field). -/
def queue_spin_unlock (pvEnabled : Bool) (lockByte : Nat)
    (tailHeadField : Option HeadNode) : Option UnlockRes :=
  if pvEnabled = false then some ⟨0, false, false⟩
  else if lockByte = Q_LOCKED_VAL then some ⟨0, false, false⟩
  else
    match queue_spin_unlock_slowpath tailHeadField with
    | none => none
    | some r => some ⟨r.lockByte, true, r.resumed⟩

/-- Result of `queue_spin_lock`: the new lock value, whether the fast path
returned immediately, and whether a slow path (the only place a WaitNode
is prepared and linked; kernel/locking/qspinlock.c) was entered. -/
structure AcqRes where
  val : Nat
  fastReturn : Bool
  nodeUsed : Bool
  pvSlow : Bool
deriving DecidableEq

/-- `queue_spin_lock` (qspinlock.h lines 42-53):
`val = atomic_cmpxchg(&lock->val, 0, _Q_LOCKED_VAL)`; `val == 0` returns
immediately; otherwise one of the two slow paths runs (each prepares and
links a WaitNode). -/
def queue_spin_lock (pvEnabled : Bool) (lockVal : Nat) : AcqRes :=
  let old := lockVal
  let newVal := if old = 0 then Q_LOCKED_VAL else old
  if old = 0 then ⟨newVal, true, false, false⟩
  else if pvEnabled then ⟨newVal, false, true, true⟩
  else ⟨newVal, false, true, false⟩

/-- `pv_set_head_in_tail` (pvqspinlock.h lines 103-119). The successive
values read from the lock's tail by `pv_decode_tail(atomic_read(...))` are
supplied as the first read `tn` plus the list `reads` of re-reads taken
after each write; `mem` maps a tail node reference to its `head` field
(`none` = PV_INVALID_HEAD, on which the source spins -- modelled as result
`none`, as is running out of supplied re-reads before the tail is stable).
The body writes `head` into the current tail node, re-reads the tail, and
repeats until the re-read equals the node just written. -/
def pv_set_head_in_tail {T H : Type} [DecidableEq T] (head : H) :
    T → List T → (T → Option H) → Option ((T → Option H) × T)
  | tn, reads, mem =>
      match mem tn with
      | none => none
      | some _ =>
        let mem2 := fun t => if t = tn then some head else mem t
        match reads with
        | [] => none
        | r :: rest =>
            if r = tn then some (mem2, tn)
            else pv_set_head_in_tail head r rest mem2

/-- Events of the head-halt attempt in `pv_wait_head`, in execution
order. -/
inductive HEv where
  | publishHead   -- pv_set_head_in_tail call, line 258
  | casCpuState   -- cmpxchg(&pn->cpustate, ACTIVE, HALTED), line 286
  | casLockByte   -- cmpxchg((u8 *)lock, _Q_LOCKED_VAL, _Q_LOCKED_SLOWPATH), line 290
  | park          -- pv_lockwait((u8 *)lock), line 293
deriving DecidableEq

/-- How one halt attempt of `pv_wait_head` ends: the CPU parks; or the
lock byte was found free (0) so halting is aborted and the function
returns to let the caller retry acquisition; or the state was `KICKED`
and the outer loop continues with reset count. -/
inductive HaltOutcome where
  | parked
  | returned
  | continueKicked
deriving DecidableEq

/-- State after one halt attempt of `pv_wait_head`. -/
structure HaltRes (T H : Type) where
  mem : T → Option H
  stableTail : T
  cpustate : CpuState
  lockByte : Nat
  outcome : HaltOutcome
  events : List HEv

/-- The halt attempt of `pv_wait_head` (pvqspinlock.h lines 254-302),
reached when the spin count expires: publish the head into the tail node
(`pv_set_head_in_tail`, line 258); `cmpxchg(&pn->cpustate, PV_CPU_ACTIVE,
PV_CPU_HALTED)` and continue the outer loop if the old state was
`PV_CPU_KICKED` (lines 286-288); else `val = cmpxchg((u8 *)lock,
_Q_LOCKED_VAL, _Q_LOCKED_SLOWPATH)` (line 290); a nonzero `val` parks via
`pv_lockwait` (line 293); `val == 0` means the lock is free, so the state
is restored to `PV_CPU_ACTIVE` and the function returns (lines 296-301).
Outer `none`: the publication loop never finished. -/
def pv_wait_head_halt {T H : Type} [DecidableEq T] (node : H) (tn : T)
    (reads : List T) (mem : T → Option H) (cs : CpuState)
    (lockByte : Nat) : Option (HaltRes T H) :=
  match pv_set_head_in_tail node tn reads mem with
  | none => none
  | some (mem2, stable) =>
      let oldstate := cs
      let cs2 := cpustate_step CpuOp.headHaltCas cs
      if oldstate = CpuState.KICKED then
        some ⟨mem2, stable, cs2, lockByte, HaltOutcome.continueKicked,
              [HEv.publishHead, HEv.casCpuState]⟩
      else
        let val := lockByte
        let lb2 := if val = Q_LOCKED_VAL then Q_LOCKED_SLOWPATH else val
        if val ≠ 0 then
          some ⟨mem2, stable, cs2, lb2, HaltOutcome.parked,
                [HEv.publishHead, HEv.casCpuState, HEv.casLockByte,
                 HEv.park]⟩
        else
          some ⟨mem2, stable, CpuState.ACTIVE, lb2, HaltOutcome.returned,
                [HEv.publishHead, HEv.casCpuState, HEv.casLockByte]⟩

/-- Shared state of the Race A handshake (pvqspinlock.h lines 151-213 for
the member, lines 316-350 for the predecessor), under sequentially
consistent interleaving -- each listed step is fenced in the source
(`smp_mb` at lines 163, 199, 344). `mpc`/`ppc` are the member's and the
predecessor's program counters; `halted` is `cpustate == PV_CPU_HALTED`;
`parked` records that `pv_lockwait` ran (line 204); `slowpathSet` records
the predecessor's `_Q_LOCKED_SLOWPATH` store (line 348), which routes the
unlock through the slow path that kicks the halted CPU. -/
structure RaceAState where
  mpc : Fin 4
  ppc : Fin 4
  locked : Bool
  mayhalt : Bool
  halted : Bool
  parked : Bool
  slowpathSet : Bool
deriving DecidableEq

instance : Fintype RaceAState :=
  Fintype.ofEquiv (Fin 4 × Fin 4 × Bool × Bool × Bool × Bool × Bool)
    { toFun := fun p =>
        ⟨p.1, p.2.1, p.2.2.1, p.2.2.2.1, p.2.2.2.2.1, p.2.2.2.2.2.1,
         p.2.2.2.2.2.2⟩
      invFun := fun s =>
        ⟨s.mpc, s.ppc, s.locked, s.mayhalt, s.halted, s.parked,
         s.slowpathSet⟩
      left_inv := fun _ => rfl
      right_inv := fun _ => rfl }

/-- Both CPUs at their first step, all flags clear. -/
def raceAInit : RaceAState := ⟨0, 0, false, false, false, false, false⟩

/-- One step of the waiting member (pv_link_and_wait_node): step 0 sets
`mayhalt` (line 158, fenced by line 163); step 1 stores
`cpustate = PV_CPU_HALTED` (line 170, fenced by line 199); step 2
re-reads `locked` (line 200) and parks only if it is still false
(line 204), else the halt is aborted. -/
def raceAStepM (s : RaceAState) : RaceAState :=
  if s.mpc = 0 then { s with mayhalt := true, mpc := 1 }
  else if s.mpc = 1 then { s with halted := true, mpc := 2 }
  else if s.mpc = 2 then
    (if s.locked then { s with mpc := 3 }
     else { s with parked := true, mpc := 3 })
  else s

/-- One step of the predecessor (pv_wait_check, after its caller stored
`node->locked = true`): step 0 is that `locked` store; step 1 reads
`mayhalt` (line 336) and returns when it is false; step 2, after the
`smp_mb` of line 344, reads `cpustate` (line 345) and stores
`_Q_LOCKED_SLOWPATH` (line 348) when it is `PV_CPU_HALTED`. -/
def raceAStepP (s : RaceAState) : RaceAState :=
  if s.ppc = 0 then { s with locked := true, ppc := 1 }
  else if s.ppc = 1 then
    (if s.mayhalt then { s with ppc := 2 } else { s with ppc := 3 })
  else if s.ppc = 2 then
    (if s.halted then { s with slowpathSet := true, ppc := 3 }
     else { s with ppc := 3 })
  else s

/-- All states reachable by interleaving the member's and the
predecessor's steps from the initial state. -/
inductive RaceAReach : RaceAState → Prop where
  | start : RaceAReach raceAInit
  | member : ∀ s, RaceAReach s → RaceAReach (raceAStepM s)
  | prev : ∀ s, RaceAReach s → RaceAReach (raceAStepP s)

/-- Inductive invariant of the Race A handshake. -/
def raceAInv (s : RaceAState) : Prop :=
  ((1 : Fin 4) ≤ s.mpc → s.mayhalt = true) ∧
  ((2 : Fin 4) ≤ s.mpc → s.halted = true) ∧
  ((1 : Fin 4) ≤ s.ppc → s.locked = true) ∧
  (s.parked = true → s.mpc = 3) ∧
  (s.parked = true → s.ppc = 3 → s.slowpathSet = true) ∧
  (s.mpc = 3 → s.parked = false → s.locked = true)

instance (s : RaceAState) : Decidable (raceAInv s) := by
  unfold raceAInv; infer_instance

/-- A fully interleaved Race A run in which the member halts before the
predecessor starts: the member parks, then the predecessor hands off. -/
def raceAFinalExample : RaceAState :=
  raceAStepP (raceAStepP (raceAStepP
    (raceAStepM (raceAStepM (raceAStepM raceAInit)))))

/-- A queue head whose `locked` flag is unexpectedly false: the breach
`pv_get_qhead` checks for. -/
def badHead : HeadNode := ⟨false, CpuState.ACTIVE⟩

/-- The unlock-slow-path result on `badHead`. -/
def badUnlockRes : UnlockSlowRes :=
  { lockByte := 0, headFound := false, headState := none,
    resumed := false, warned := true,
    events := [UEv.locateHead, UEv.clearLock] }

/-- The unlock-slow-path result on a halted, locked queue head. -/
def unlockSlowExampleRes : UnlockSlowRes :=
  { lockByte := 0, headFound := true,
    headState := some CpuState.KICKED, resumed := true, warned := false,
    events := [UEv.locateHead, UEv.clearLock, UEv.kickHead] }

/-- A concrete tail-node memory for the head-halt example: every tail's
head field is already published. -/
def haltExampleMem : Nat → Option Nat := fun _ => some 7

/-- The head-halt result on `haltExampleMem` with node 5, tail 0, a single
stable re-read, state `ACTIVE` and a free lock byte. -/
def haltExampleRes : HaltRes Nat Nat :=
  { mem := fun t => if t = 0 then some 5 else haltExampleMem t
    stableTail := 0
    cpustate := CpuState.ACTIVE
    lockByte := 0
    outcome := HaltOutcome.returned
    events := [HEv.publishHead, HEv.casCpuState, HEv.casLockByte] }

theorem raceAInv_init : raceAInv raceAInit := by decide

set_option maxRecDepth 4000 in
theorem raceAInv_stepM (s : RaceAState) (h : raceAInv s) :
    raceAInv (raceAStepM s) := by revert s h; decide

set_option maxRecDepth 4000 in
theorem raceAInv_stepP (s : RaceAState) (h : raceAInv s) :
    raceAInv (raceAStepP s) := by revert s h; decide

theorem raceAReach_inv (s : RaceAState) (h : RaceAReach s) : raceAInv s := by
  induction h with
  | start => exact raceAInv_init
  | member t _ ih => exact raceAInv_stepM t ih
  | prev t _ ih => exact raceAInv_stepP t ih

theorem set_head_in_tail_stuck {T H : Type} [DecidableEq T] (head : H)
    (tn : T) (reads : List T) (mem : T → Option H) (hmt : mem tn = none) :
    pv_set_head_in_tail head tn reads mem = none := by
  unfold pv_set_head_in_tail
  rw [hmt]

theorem set_head_in_tail_nil {T H : Type} [DecidableEq T] (head : H)
    (tn : T) (mem : T → Option H) (v : H) (hmt : mem tn = some v) :
    pv_set_head_in_tail head tn [] mem = none := by
  unfold pv_set_head_in_tail
  rw [hmt]

theorem set_head_in_tail_cons {T H : Type} [DecidableEq T] (head : H)
    (tn r : T) (rest : List T) (mem : T → Option H) (v : H)
    (hmt : mem tn = some v) :
    pv_set_head_in_tail head tn (r :: rest) mem =
      if r = tn then
        some (fun t => if t = tn then some head else mem t, tn)
      else
        pv_set_head_in_tail head r rest
          (fun t => if t = tn then some head else mem t) := by
  conv_lhs => unfold pv_set_head_in_tail
  rw [hmt]

theorem pv_set_head_in_tail_publishes {T H : Type} [DecidableEq T]
    (head : H) (reads : List T) :
    ∀ (tn : T) (mem m2 : T → Option H) (st : T),
      pv_set_head_in_tail head tn reads mem = some (m2, st) →
      m2 st = some head := by
  induction reads with
  | nil =>
      intro tn mem m2 st h
      cases hmt : mem tn with
      | none => rw [set_head_in_tail_stuck head tn _ mem hmt] at h; cases h
      | some v => rw [set_head_in_tail_nil head tn mem v hmt] at h; cases h
  | cons r rest ih =>
      intro tn mem m2 st h
      cases hmt : mem tn with
      | none => rw [set_head_in_tail_stuck head tn _ mem hmt] at h; cases h
      | some v =>
          rw [set_head_in_tail_cons head tn r rest mem v hmt] at h
          by_cases hr : r = tn
          · rw [if_pos hr] at h
            simp only [Option.some.injEq, Prod.mk.injEq] at h
            obtain ⟨hm2, hst⟩ := h
            subst hm2; subst hst
            simp
          · rw [if_neg hr] at h
            exact ih r _ m2 st h

/-- C1: In the member-halt vs predecessor-release handshake (Race A), for
every interleaving of the member's steps (set `mayhalt`, set
`cpustate = HALTED`, re-check `locked` and park only if still false) with
the predecessor's steps (set `locked`, and when `mayhalt` is observed,
check `cpustate` and engage the wake when `HALTED`), once both sides have
finished, either the halt was aborted because `locked` was seen true, or
the predecessor observed `HALTED` and set `_Q_LOCKED_SLOWPATH`, routing
the unlock through the path that kicks the halted CPU: no halted member
misses its wakeup. -/
theorem raceA_no_missed_wakeup (s : RaceAState) (h : RaceAReach s)
    (hm : s.mpc = 3) (hp : s.ppc = 3) :
    (s.parked = false ∧ s.locked = true) ∨ s.slowpathSet = true := by
  have hi := raceAReach_inv s h
  cases hb : s.parked with
  | true => exact Or.inr (hi.2.2.2.2.1 hb hp)
  | false => exact Or.inl ⟨rfl, hi.2.2.2.2.2 hm hb⟩

theorem raceA_no_missed_wakeup_witness :
    (raceAFinalExample.parked = false ∧ raceAFinalExample.locked = true) ∨
      raceAFinalExample.slowpathSet = true :=
  raceA_no_missed_wakeup raceAFinalExample
    (RaceAReach.prev _ (RaceAReach.prev _ (RaceAReach.prev _
      (RaceAReach.member _ (RaceAReach.member _ (RaceAReach.member _
        RaceAReach.start))))))
    (by decide) (by decide)

/-- C2 counterexample: applying `pv_kick_node` to a node whose `cpustate`
is `ACTIVE` leaves `cpustate = KICKED`, not `ACTIVE` -- the `xchg` at
pvqspinlock.h line 364 runs unconditionally -- refuting the claim's
"leaves the node's cpu_state equal to ACTIVE (not KICKED)". No resume
call is issued. -/
theorem pv_kick_node_active_counterexample :
    (pv_kick_node (some CpuState.ACTIVE)).1 ≠ some CpuState.ACTIVE ∧
    (pv_kick_node (some CpuState.ACTIVE)).1 = some CpuState.KICKED ∧
    (pv_kick_node (some CpuState.ACTIVE)).2.resumed = false := by decide

/-- C2 amended: `pv_kick_node` on a present node always exchanges
`cpustate` to `KICKED`; the explicit resume call is issued if and only if
the previous value was `HALTED`; on an `ACTIVE` node no resume call is
issued and the redundant kick is reported via the `PV_KICK_NOHALT`
statistic. -/
theorem pv_kick_node_redundant_amended (s : CpuState) :
    ((pv_kick_node (some s)).2.resumed = true ↔ s = CpuState.HALTED) ∧
    (pv_kick_node (some s)).1 = some CpuState.KICKED ∧
    (s = CpuState.ACTIVE →
      (pv_kick_node (some s)).2.resumed = false ∧
      (pv_kick_node (some s)).2.statNoHalt = true) := by
  revert s; decide

theorem pv_kick_node_redundant_amended_witness :
    (pv_kick_node (some CpuState.ACTIVE)).2.resumed = false ∧
    (pv_kick_node (some CpuState.ACTIVE)).2.statNoHalt = true :=
  (pv_kick_node_redundant_amended CpuState.ACTIVE).2.2 rfl

/-- C4 counterexample: the kick `xchg` applied to an `ACTIVE` node moves
`cpustate` directly from `ACTIVE` to `KICKED` -- a transition outside the
set the claim allows. The source itself documents that this happens when
the lock holder kicks a queue head that a spurious interrupt has already
woken (pvqspinlock.h lines 281-284). -/
theorem cpustate_active_to_kicked_counterexample :
    cpustate_step CpuOp.kickXchg CpuState.ACTIVE = CpuState.KICKED ∧
    specAllowedC4 (CpuState.ACTIVE, CpuState.KICKED) = false := by decide

/-- C4 amended: every proper `cpustate` change made by a write site of the
source lies in the spec's transition set extended with
`ACTIVE → KICKED` (the redundant kick); the member's halt store at line
170 is a plain store reached only with the state at `ACTIVE` (it follows
the `ACTIVE` store of line 208 or node initialization, and an intervening
kick implies `locked` is set, which exits the loop at line 211), stated
here as its precondition. Moreover `KICKED` is cleared back to `ACTIVE`
once observed: at each of the four sites that observe a kick -- the
member's post-wake check (lines 205-208), the head's spin check
(line 246), the head's halt `cmpxchg` (lines 286-288) and the head's
post-wake check (lines 293-295) -- an observed `KICKED` ends as
`ACTIVE`. -/
theorem cpustate_transitions_amended :
    (∀ (op : CpuOp) (s : CpuState),
      (op = CpuOp.memberHalt → s = CpuState.ACTIVE) →
      cpustate_step op s ≠ s →
      amendedAllowedC4 (s, cpustate_step op s) = true) ∧
    (∀ s : CpuState,
      ((member_wake_observe s).1 = true →
        (member_wake_observe s).2 = CpuState.ACTIVE) ∧
      ((head_spin_observe s).1 = true →
        (head_spin_observe s).2 = CpuState.ACTIVE) ∧
      ((head_cas_observe s).1 = true →
        (head_cas_observe s).2 = CpuState.ACTIVE) ∧
      ((head_wake_observe s).1 = true →
        (head_wake_observe s).2 = CpuState.ACTIVE)) :=
  ⟨by decide, by decide⟩

theorem cpustate_transitions_amended_witness :
    amendedAllowedC4 (CpuState.ACTIVE,
      cpustate_step CpuOp.kickXchg CpuState.ACTIVE) = true ∧
    (head_cas_observe CpuState.KICKED).2 = CpuState.ACTIVE ∧
    (member_wake_observe CpuState.KICKED).2 = CpuState.ACTIVE :=
  ⟨cpustate_transitions_amended.1 CpuOp.kickXchg CpuState.ACTIVE
      (by decide) (by decide),
   (cpustate_transitions_amended.2 CpuState.KICKED).2.2.1 (by decide),
   (cpustate_transitions_amended.2 CpuState.KICKED).1 (by decide)⟩

/-- C10: `pv_kick_node` on a NULL node (as `pv_get_qhead` returns after a
detected breach) is a total no-op: no `xchg` is performed, no resume call
is issued, no statistic is recorded, and no state is produced
(pvqspinlock.h lines 361-362). -/
theorem pv_kick_node_null_noop :
    pv_kick_node none =
      (none, { xchgDone := false, resumed := false,
               statNoHalt := false }) := rfl

/-- C8: a node prepared for the slow path has all four fields at their
defaults: `locked = false`, `cpustate = ACTIVE`, `mayhalt = false`, and
`head = PV_INVALID_HEAD` (the `pv_qnode` fields via `pv_init_node`,
pvqspinlock.h lines 76-86; the mcs `locked` flag via the generic slow
path's preparation, modelled from the spec). -/
theorem slowpath_prepare_node_defaults (cpu : Nat) (n : pv_qnode) :
    (slowpath_prepare_node cpu n).locked = false ∧
    (slowpath_prepare_node cpu n).cpustate = CpuState.ACTIVE ∧
    (slowpath_prepare_node cpu n).mayhalt = false ∧
    (slowpath_prepare_node cpu n).head = none :=
  ⟨rfl, rfl, rfl, rfl⟩

/-- C7: the fast-path acquire is the single compare-and-swap
`atomic_cmpxchg(&lock->val, 0, _Q_LOCKED_VAL)` (qspinlock.h line 46);
when the old value read was 0 it returns immediately with the lock word
holding only the locked bit, and no slow path runs, so no WaitNode is
prepared or linked. -/
theorem queue_spin_lock_fast_path (pvEnabled : Bool) :
    queue_spin_lock pvEnabled 0 =
      { val := Q_LOCKED_VAL, fastReturn := true, nodeUsed := false,
        pvSlow := false } := rfl

/-- C9: releasing a lock whose byte still holds the plain
`_Q_LOCKED_VAL` (no queued waiter ever upgraded it to
`_Q_LOCKED_SLOWPATH`) clears the byte to 0 and enters no slow path, so no
wake is issued: without paravirt via the plain byte store (qspinlock.h
lines 8-12), with paravirt because `cmpxchg((u8 *)lock, _Q_LOCKED_VAL,
0)` succeeds (qspinlock.h lines 79-80). -/
theorem queue_spin_unlock_empty (pvEnabled : Bool)
    (tailHeadField : Option HeadNode) :
    queue_spin_unlock pvEnabled Q_LOCKED_VAL tailHeadField =
      some { lockByte := 0, slowEntered := false, resumed := false } := by
  cases pvEnabled <;> rfl

/-- C5: the slow-path release first locates the queue head via the tail
node's head pointer, then clears the lock byte, and only then applies the
kick to the located head; the clear always happens before any kick event,
and when `pv_get_qhead` found no head, no wake is issued
(pvqspinlock.h lines 399-408). -/
theorem unlock_slowpath_clears_before_wake (tailHeadField : Option HeadNode)
    (res : UnlockSlowRes)
    (h : queue_spin_unlock_slowpath tailHeadField = some res) :
    res.lockByte = 0 ∧
    res.events = UEv.locateHead :: UEv.clearLock ::
      (if res.headFound then [UEv.kickHead] else []) ∧
    (res.headFound = false → res.resumed = false) := by
  cases tailHeadField with
  | none => exact Option.noConfusion h
  | some hd =>
      obtain ⟨l, c⟩ := hd
      cases l <;> cases c <;> (injection h with h3; subst h3; decide)

theorem unlock_slowpath_clears_before_wake_witness :
    unlockSlowExampleRes.lockByte = 0 ∧
    unlockSlowExampleRes.events = UEv.locateHead :: UEv.clearLock ::
      (if unlockSlowExampleRes.headFound then [UEv.kickHead] else []) ∧
    (unlockSlowExampleRes.headFound = false →
      unlockSlowExampleRes.resumed = false) :=
  unlock_slowpath_clears_before_wake (some ⟨true, CpuState.HALTED⟩)
    unlockSlowExampleRes rfl

/-- C3 counterexample: with the queue head's `locked` flag false,
`queue_spin_unlock_slowpath` does not trap: it returns normally with the
lock byte cleared to 0 (the `WARN_ON_ONCE` only records the breach),
refuting "it never proceeds to clear the lock and return as if the
release succeeded". -/
theorem unlock_slowpath_continues_counterexample :
    (queue_spin_unlock_slowpath (some badHead)).isSome = true ∧
    queue_spin_unlock_slowpath (some badHead) = some badUnlockRes := by
  decide

/-- C3 amended: when the queue head is found with its `locked` flag
false, the breach is reported through `WARN_ON_ONCE` and no head is
returned, so no wake is applied; but the release is not aborted: the lock
byte is still cleared and the slow path returns normally. -/
theorem unlock_slowpath_warns_and_continues (hd : HeadNode)
    (res : UnlockSlowRes) (hl : hd.locked = false)
    (h : queue_spin_unlock_slowpath (some hd) = some res) :
    res.warned = true ∧ res.lockByte = 0 ∧ res.resumed = false ∧
    res.headFound = false ∧ UEv.kickHead ∉ res.events := by
  obtain ⟨l, c⟩ := hd
  subst hl
  injection h with h3
  subst h3
  cases c <;> decide

theorem unlock_slowpath_warns_and_continues_witness :
    badUnlockRes.warned = true ∧ badUnlockRes.lockByte = 0 ∧
    badUnlockRes.resumed = false ∧ badUnlockRes.headFound = false ∧
    UEv.kickHead ∉ badUnlockRes.events :=
  unlock_slowpath_warns_and_continues badHead badUnlockRes rfl rfl

/-- C6: in every completed halt attempt of the queue head, the
publication into the tail node's head field (the retry loop of
`pv_set_head_in_tail`, keyed on re-reading the lock tail until stable)
comes first, and the stable tail node ends up holding the head's
reference; when the head parks, the event trace is exactly publish, then
the `cpustate` `cmpxchg`, then the lock-byte `cmpxchg`, then park -- so
publication and the lock-byte compare-and-swap both precede parking, the
lock byte having been found nonzero (and, when it was the plain locked
value, upgraded to `_Q_LOCKED_SLOWPATH`); when instead that
compare-and-swap reads 0 (lock already released), halting is aborted:
the head does not park, its `cpustate` is restored to `ACTIVE`, and the
function returns so acquisition is retried immediately. -/
theorem pv_wait_head_publish_then_park_or_abort {T H : Type}
    [DecidableEq T] (node : H) (tn : T) (reads : List T)
    (mem : T → Option H) (cs : CpuState) (lockByte : Nat)
    (res : HaltRes T H)
    (h : pv_wait_head_halt node tn reads mem cs lockByte = some res) :
    res.events.head? = some HEv.publishHead ∧
    res.mem res.stableTail = some node ∧
    (res.outcome = HaltOutcome.parked →
      res.events = [HEv.publishHead, HEv.casCpuState, HEv.casLockByte,
        HEv.park] ∧ lockByte ≠ 0) ∧
    (res.outcome = HaltOutcome.parked → lockByte = Q_LOCKED_VAL →
      res.lockByte = Q_LOCKED_SLOWPATH) ∧
    (cs = CpuState.ACTIVE → lockByte = 0 →
      res.outcome = HaltOutcome.returned ∧
      res.cpustate = CpuState.ACTIVE ∧
      res.lockByte = 0 ∧
      res.events = [HEv.publishHead, HEv.casCpuState,
        HEv.casLockByte]) := by
  unfold pv_wait_head_halt at h
  cases hp : pv_set_head_in_tail node tn reads mem with
  | none => rw [hp] at h; cases h
  | some p =>
      obtain ⟨m2, st⟩ := p
      rw [hp] at h
      have hpub := pv_set_head_in_tail_publishes node reads tn mem m2 st hp
      cases cs with
      | ACTIVE =>
          cases lockByte with
          | zero =>
              injection h with h3; subst h3
              exact ⟨rfl, hpub,
                fun hpk => HaltOutcome.noConfusion hpk,
                fun hpk => HaltOutcome.noConfusion hpk,
                fun _ _ => ⟨rfl, rfl, rfl, rfl⟩⟩
          | succ n =>
              injection h with h3; subst h3
              refine ⟨rfl, hpub, fun _ => ⟨rfl, Nat.succ_ne_zero n⟩,
                fun _ hl => ?_,
                fun _ h0 => absurd h0 (Nat.succ_ne_zero n)⟩
              show (if (n + 1 : Nat) = Q_LOCKED_VAL then Q_LOCKED_SLOWPATH
                  else (n + 1)) = Q_LOCKED_SLOWPATH
              rw [if_pos hl]
      | KICKED =>
          injection h with h3; subst h3
          exact ⟨rfl, hpub,
            fun hpk => HaltOutcome.noConfusion hpk,
            fun hpk => HaltOutcome.noConfusion hpk,
            fun hA => CpuState.noConfusion hA⟩
      | HALTED =>
          cases lockByte with
          | zero =>
              injection h with h3; subst h3
              exact ⟨rfl, hpub,
                fun hpk => HaltOutcome.noConfusion hpk,
                fun hpk => HaltOutcome.noConfusion hpk,
                fun hA => CpuState.noConfusion hA⟩
          | succ n =>
              injection h with h3; subst h3
              refine ⟨rfl, hpub, fun _ => ⟨rfl, Nat.succ_ne_zero n⟩,
                fun _ hl => ?_, fun hA => absurd hA (by decide)⟩
              show (if (n + 1 : Nat) = Q_LOCKED_VAL then Q_LOCKED_SLOWPATH
                  else (n + 1)) = Q_LOCKED_SLOWPATH
              rw [if_pos hl]

theorem pv_wait_head_publish_then_park_or_abort_witness :
    haltExampleRes.events.head? = some HEv.publishHead ∧
    haltExampleRes.mem haltExampleRes.stableTail = some 5 ∧
    (haltExampleRes.outcome = HaltOutcome.returned ∧
      haltExampleRes.cpustate = CpuState.ACTIVE ∧
      haltExampleRes.lockByte = 0 ∧
      haltExampleRes.events = [HEv.publishHead, HEv.casCpuState,
        HEv.casLockByte]) :=
  have hall := pv_wait_head_publish_then_park_or_abort 5 0 [0]
    haltExampleMem CpuState.ACTIVE 0 haltExampleRes rfl
  ⟨hall.1, hall.2.1, hall.2.2.2.2 rfl rfl⟩
